import Mathlib

/-!
Verification development for the almond-py robot-arm client.

The embedding below models, faithfully to the Python source:
  - src/almond/types.py : the domain value types and their from_dict
    deserializers (dictionary indexing raises KeyError on a missing key,
    enum conversion raises ValueError on an unknown value, and calling a
    constructor with the wrong number of positional arguments raises
    TypeError before any object is constructed);
  - src/almond/client.py : the AlmondBotClient state (session, ws,
    request_id) and the operations connect, disconnect and the JSON-RPC
    helper that sends a request and interprets the next received frame.

JSON numbers are modelled as integers: none of the verified properties
depends on fractional values, only on which fields are present and how
they flow through the code.
-/

/-- A JSON value as produced by msg.json() and consumed by the from_dict
deserializers. Objects are association lists in field order. -/
inductive JVal where
  | null
  | bool (b : Bool)
  | num (n : Int)
  | str (s : String)
  | arr (elems : List JVal)
  | obj (fields : List (String × JVal))

/-- The Python exceptions the deserializers can raise. -/
inductive PyErr where
  | keyError (k : String)
  | valueError (msg : String)
  | typeError (msg : String)
deriving DecidableEq

/-- First binding of a key in a JSON object, as Python dict lookup. -/
def jfind (k : String) : List (String × JVal) → Option JVal
  | [] => none
  | (k', v) :: rest => if k' = k then some v else jfind k rest

/-- Python subscripting v[k]: KeyError when the key is absent from a
dictionary, TypeError when the value is not a dictionary at all. -/
def jIndex (v : JVal) (k : String) : Except PyErr JVal :=
  match v with
  | .obj fields =>
    match jfind k fields with
    | some x => .ok x
    | none => .error (.keyError k)
  | _ => .error (.typeError "value is not subscriptable")

/-- Mode enum from types.py. -/
inductive Mode where
  | drag
  | teleoperation
  | autonomous
deriving DecidableEq

/-- Mode(value): Python enum conversion, ValueError on an unknown value. -/
def Mode.ofVal : JVal → Except PyErr Mode
  | .str "drag" => .ok .drag
  | .str "teleoperation" => .ok .teleoperation
  | .str "autonomous" => .ok .autonomous
  | _ => .error (.valueError "is not a valid Mode")

/-- AIModel enum from types.py. -/
inductive AIModel where
  | PI0
  | PI0_FAST
  | ACT
  | DIFFUSION
  | TDMPC
  | VQBET
deriving DecidableEq

/-- AIModel(value): Python enum conversion, ValueError on unknown value. -/
def AIModel.ofVal : JVal → Except PyErr AIModel
  | .str "PI0" => .ok .PI0
  | .str "PI0_FAST" => .ok .PI0_FAST
  | .str "ACT" => .ok .ACT
  | .str "DIFFUSION" => .ok .DIFFUSION
  | .str "TDMPC" => .ok .TDMPC
  | .str "VQBET" => .ok .VQBET
  | _ => .error (.valueError "is not a valid AIModel")

/-- Pose: six fields. The Python constructor performs no type checking,
so the fields hold whatever JSON values were passed in. -/
structure Pose where
  x : JVal
  y : JVal
  z : JVal
  roll : JVal
  pitch : JVal
  yaw : JVal

def Pose.to_list (p : Pose) : List JVal :=
  [p.x, p.y, p.z, p.roll, p.pitch, p.yaw]

/-- Pose.from_dict: indexes the six keys in source order; no shape check
on the values themselves. -/
def Pose.from_dict (data : JVal) : Except PyErr Pose := do
  let x ← jIndex data "x"
  let y ← jIndex data "y"
  let z ← jIndex data "z"
  let roll ← jIndex data "roll"
  let pitch ← jIndex data "pitch"
  let yaw ← jIndex data "yaw"
  pure ⟨x, y, z, roll, pitch, yaw⟩

/-- Status: the constructor defaults error_message to None, but from_dict
always passes all three arguments explicitly. -/
structure Status where
  mode : Mode
  status : JVal
  error_message : JVal

/-- Status.from_dict: evaluates Mode(data[mode]), then data[status],
then data[error_message] — bracket indexing, so a missing
error_message key raises KeyError despite the constructor default. -/
def Status.from_dict (data : JVal) : Except PyErr Status := do
  let mv ← jIndex data "mode"
  let md ← Mode.ofVal mv
  let st ← jIndex data "status"
  let em ← jIndex data "error_message"
  pure ⟨md, st, em⟩

/-- Joints: six joint values, untyped as in the source. -/
structure Joints where
  j1 : JVal
  j2 : JVal
  j3 : JVal
  j4 : JVal
  j5 : JVal
  j6 : JVal

def Joints.to_list (j : Joints) : List JVal :=
  [j.j1, j.j2, j.j3, j.j4, j.j5, j.j6]

def Joints.from_dict (data : JVal) : Except PyErr Joints := do
  let a1 ← jIndex data "j1"
  let a2 ← jIndex data "j2"
  let a3 ← jIndex data "j3"
  let a4 ← jIndex data "j4"
  let a5 ← jIndex data "j5"
  let a6 ← jIndex data "j6"
  pure ⟨a1, a2, a3, a4, a5, a6⟩

/-- Point namedtuple. -/
structure Point where
  x : JVal
  y : JVal

structure AprilTag where
  id : JVal
  center : Point
  corners : List Point
  offset : Pose

/-- The list comprehension over data[corners] in AprilTag.from_dict. -/
def cornerPoints : List JVal → Except PyErr (List Point)
  | [] => .ok []
  | c :: cs => do
    let cx ← jIndex c "x"
    let cy ← jIndex c "y"
    let rest ← cornerPoints cs
    pure (⟨cx, cy⟩ :: rest)

/-- AprilTag.from_dict: id, center point, corner list (must be a JSON
array or iteration raises TypeError), then the offset pose. -/
def AprilTag.from_dict (data : JVal) : Except PyErr AprilTag := do
  let i ← jIndex data "id"
  let c ← jIndex data "center"
  let cx ← jIndex c "x"
  let cy ← jIndex c "y"
  let cs ← jIndex data "corners"
  let corners ← match cs with
    | .arr l => cornerPoints l
    | _ => .error (.typeError "value is not iterable")
  let o ← jIndex data "offset"
  let ox ← jIndex o "x"
  let oy ← jIndex o "y"
  let oz ← jIndex o "z"
  let oroll ← jIndex o "roll"
  let opitch ← jIndex o "pitch"
  let oyaw ← jIndex o "yaw"
  pure ⟨i, ⟨cx, cy⟩, corners, ⟨ox, oy, oz, oroll, opitch, oyaw⟩⟩

structure TrainingEpisode where
  id : JVal
  task_name : JVal
  duration_seconds : JVal
  created_at : JVal

def TrainingEpisode.from_dict (data : JVal) : Except PyErr TrainingEpisode := do
  let i ← jIndex data "id"
  let tn ← jIndex data "task_name"
  let ds ← jIndex data "duration_seconds"
  let ca ← jIndex data "created_at"
  pure ⟨i, tn, ds, ca⟩

/-- TaskTraining: the constructor takes seven required parameters. -/
structure TaskTraining where
  id : JVal
  task_name : JVal
  training_name : JVal
  model : AIModel
  training_episode_count : JVal
  status : JVal
  created_at : JVal

/-- TaskTraining.from_dict: evaluates the six argument expressions in
source order, then calls the seven-parameter constructor with only six
positional arguments (the created_at value lands in the status slot), so
Python raises TypeError before any TaskTraining is constructed. -/
def TaskTraining.from_dict (data : JVal) : Except PyErr TaskTraining := do
  let _i ← jIndex data "id"
  let _tn ← jIndex data "task_name"
  let _trn ← jIndex data "training_name"
  let mv ← jIndex data "model"
  let _m ← AIModel.ofVal mv
  let _tec ← jIndex data "training_episode_count"
  let _ca ← jIndex data "created_at"
  .error (.typeError "TaskTraining init missing 1 required positional argument: created_at")

/-- A frame returned by ws.receive(): a TEXT frame carrying a parsed
JSON-RPC envelope (an object), a CLOSE or CLOSING control frame, or any
other frame type (binary), which the client treats as unexpected. -/
inductive WSMsg where
  | text (response : List (String × JVal))
  | close
  | closing
  | binary

/-- The JSON-RPC request envelope built in the _call method. -/
structure Request where
  jsonrpc : String
  method : String
  params : List (String × JVal)
  id : Nat

/-- The exceptions _call and its wrappers can raise.
connectionError models the aiohttp client connection error raised when
session.ws_connect cannot reach the endpoint;
clientConnectionError models the explicit
raise ClientConnectionError for an unexpected frame type (and a receive
on a dead socket, which yields a CLOSED frame and takes the same branch);
rpcError carries the message value interpolated into the
raise Exception of the error branch; pyError wraps an exception escaping
a from_dict deserializer in a wrapper method. -/
inductive Err where
  | connectionError
  | clientConnectionError (msg : String)
  | rpcError (message : JVal)
  | pyError (e : PyErr)

/-- The mutable state of an AlmondBotClient, plus bookkeeping for
resource accounting: transport handles are numbered by a fresh counter;
openSessions lists session handles created and not yet closed, aliveWs
lists websocket handles not yet closed; sent records every request
written to the wire, in order. -/
structure ClientState where
  session : Option Nat
  ws : Option Nat
  request_id : Nat
  nextConn : Nat
  openSessions : List Nat
  aliveWs : List Nat
  sent : List Request

/-- The state after AlmondBotClient.__init__: no transport, request_id
counter at 0. -/
def initState : ClientState :=
  { session := none, ws := none, request_id := 0, nextConn := 0,
    openSessions := [], aliveWs := [], sent := [] }

/-- The check guarding _call: falsy ws or ws.closed. -/
def wsIsOpen (s : ClientState) : Bool :=
  match s.ws with
  | some w => s.aliveWs.contains w
  | none => false

/-- AlmondBotClient.connect: unconditionally creates a fresh session and
then a fresh websocket, overwriting the old handles without closing
them. When the endpoint is unreachable (reachable = false), the session
is still created and assigned but ws_connect raises, so ws keeps its old
value and the failure propagates. -/
def connect (reachable : Bool) (s : ClientState) : Except Err Unit × ClientState :=
  let c := s.nextConn
  let s1 := { s with session := some c, openSessions := c :: s.openSessions,
                     nextConn := c + 1 }
  if reachable then
    (.ok (), { s1 with ws := some c, aliveWs := c :: s1.aliveWs })
  else
    (.error .connectionError, s1)

/-- AlmondBotClient.disconnect: close and drop the websocket if present,
then close and drop the session if present. -/
def disconnect (s : ClientState) : ClientState :=
  let s1 :=
    match s.ws with
    | some w => { s with aliveWs := s.aliveWs.erase w, ws := none }
    | none => s
  match s1.session with
  | some c => { s1 with openSessions := s1.openSessions.erase c, session := none }
  | none => s1

/-- The body of _call after the connection check: increment request_id
and write the request envelope to the wire. -/
def sendReq (method : String) (params : List (String × JVal)) (s : ClientState) :
    ClientState :=
  { s with request_id := s.request_id + 1,
           sent := s.sent ++ [⟨"2.0", method, params, s.request_id + 1⟩] }

/-- Receiving a CLOSE or CLOSING frame: the peer has shut the socket, so
the current websocket handle is no longer alive. -/
def markWsDead (s : ClientState) : ClientState :=
  match s.ws with
  | some w => { s with aliveWs := s.aliveWs.erase w }
  | none => s

/-- The connection check opening _call: if ws is falsy or closed,
connect once; the connect failure, if any, propagates. -/
def ensureOpen (reachable : Bool) (s : ClientState) : Except Err Unit × ClientState :=
  if wsIsOpen s then (.ok (), s) else connect reachable s

/-- AlmondBotClient._call. The environment is the list of frames the
socket will deliver, consumed in order; an empty list models a receive
that finds the socket dead (aiohttp returns a CLOSED frame, which falls
into the unexpected-type branch). Returns the outcome, the client state
and the frames not yet consumed. Faithful to the source: if ws is
falsy or closed, connect once and proceed; allocate the next request_id
and send; receive one frame; a TEXT frame with an error member raises
the RPC error built from its message member, otherwise the result
member (defaulting to null) is returned — the id member is never
consulted; a CLOSE or CLOSING frame triggers connect and a full
recursive retry (fresh request_id, fresh send); any other frame type
raises ClientConnectionError. -/
def callRPC (reachable : Bool) (method : String) (params : List (String × JVal)) :
    List WSMsg → ClientState → Except Err JVal × ClientState × List WSMsg
  | [], s =>
    (match ensureOpen reachable s with
     | (.error e, s0) => (.error e, s0, [])
     | (.ok _, s0) =>
       (.error (.clientConnectionError "receive on dead socket"),
        sendReq method params s0, []))
  | .text response :: rest, s =>
    (match ensureOpen reachable s with
     | (.error e, s0) => (.error e, s0, .text response :: rest)
     | (.ok _, s0) =>
       match jfind "error" response with
       | some errObj =>
         (match jIndex errObj "message" with
          | .ok m => (.error (.rpcError m), sendReq method params s0, rest)
          | .error pe => (.error (.pyError pe), sendReq method params s0, rest))
       | none =>
         (.ok ((jfind "result" response).getD .null), sendReq method params s0, rest))
  | .close :: rest, s =>
    (match ensureOpen reachable s with
     | (.error e, s0) => (.error e, s0, .close :: rest)
     | (.ok _, s0) =>
       match connect reachable (markWsDead (sendReq method params s0)) with
       | (.error e, s2) => (.error e, s2, rest)
       | (.ok _, s2) => callRPC reachable method params rest s2)
  | .closing :: rest, s =>
    (match ensureOpen reachable s with
     | (.error e, s0) => (.error e, s0, .closing :: rest)
     | (.ok _, s0) =>
       match connect reachable (markWsDead (sendReq method params s0)) with
       | (.error e, s2) => (.error e, s2, rest)
       | (.ok _, s2) => callRPC reachable method params rest s2)
  | .binary :: rest, s =>
    (match ensureOpen reachable s with
     | (.error e, s0) => (.error e, s0, .binary :: rest)
     | (.ok _, s0) =>
       (.error (.clientConnectionError "unexpected message type"),
        sendReq method params s0, rest))

/-- AlmondBotClient.set_speed: forwards to _call with the percent
parameter; the result value is discarded and None is returned. -/
def set_speed (reachable : Bool) (percent : Int) (inc : List WSMsg)
    (s : ClientState) : Except Err Unit × ClientState × List WSMsg :=
  match callRPC reachable "set_speed" [("percent", .num percent)] inc s with
  | (.ok _, s', rem) => (.ok (), s', rem)
  | (.error e, s', rem) => (.error e, s', rem)

/-- AlmondBotClient.get_status: Status.from_dict applied to the _call
result; a deserializer exception propagates. -/
def get_status (reachable : Bool) (inc : List WSMsg) (s : ClientState) :
    Except Err Status × ClientState × List WSMsg :=
  match callRPC reachable "get_status" [] inc s with
  | (.ok v, s', rem) =>
    (match Status.from_dict v with
     | .ok st => (.ok st, s', rem)
     | .error pe => (.error (.pyError pe), s', rem))
  | (.error e, s', rem) => (.error e, s', rem)

/-- The list comprehension in list_trainings. -/
def trainingsOf : List JVal → Except PyErr (List TaskTraining)
  | [] => .ok []
  | t :: ts => do
    let x ← TaskTraining.from_dict t
    let xs ← trainingsOf ts
    pure (x :: xs)

/-- AlmondBotClient.list_trainings: maps TaskTraining.from_dict over the
_call result, which must be a JSON array or iteration raises TypeError. -/
def list_trainings (reachable : Bool) (task_name : JVal) (inc : List WSMsg)
    (s : ClientState) : Except Err (List TaskTraining) × ClientState × List WSMsg :=
  match callRPC reachable "list_trainings" [("task_name", task_name)] inc s with
  | (.ok v, s', rem) =>
    (match v with
     | .arr ts =>
       match trainingsOf ts with
       | .ok l => (.ok l, s', rem)
       | .error pe => (.error (.pyError pe), s', rem)
     | _ => (.error (.pyError (.typeError "value is not iterable")), s', rem))
  | (.error e, s', rem) => (.error e, s', rem)

/-- A step of client usage: a connect attempt, a disconnect, or an RPC
call with its delivered frames. -/
inductive Op where
  | doConnect (reachable : Bool)
  | doDisconnect
  | doCall (reachable : Bool) (method : String) (params : List (String × JVal))
      (inc : List WSMsg)

def step (s : ClientState) : Op → ClientState
  | .doConnect r => (connect r s).2
  | .doDisconnect => disconnect s
  | .doCall r m p inc => (callRPC r m p inc s).2.1

/-- A whole client run: a sequence of operations from a starting state. -/
def run (s : ClientState) (ops : List Op) : ClientState :=
  ops.foldl step s

/-- Whether a Python exception is a KeyError. -/
def PyErr.isKeyError : PyErr → Bool
  | .keyError _ => true
  | _ => false

/-- A client that has connected once, successfully: the state reached by
AlmondBotClient() followed by connect(). -/
def sOpen : ClientState := (connect true initState).2

/-- A client that connected once and then disconnected: ws and session
are both None again. -/
def sClosed : ClientState := disconnect sOpen

/-- A well-formed training record as the server would return it, with
every field TaskTraining.from_dict looks up. -/
def goodTraining : JVal :=
  .obj [("id", .str "a"), ("task_name", .str "t"), ("training_name", .str "n"),
        ("model", .str "PI0"), ("training_episode_count", .num 4),
        ("created_at", .str "now")]

/-- The invariant behind identifier monotonicity: the identifiers of the
requests sent so far are strictly increasing and all bounded by the
current counter value. -/
def SentInv (s : ClientState) : Prop :=
  (s.sent.map Request.id).Pairwise (· < ·) ∧ ∀ q ∈ s.sent, q.id ≤ s.request_id

/-- Claim C8: disconnect on an already-closed client (ws and session both
None) is a no-op that raises nothing and leaves the state unchanged, and
disconnect after disconnect equals a single disconnect. -/
theorem c8_disconnect_noop_idempotent :
    (∀ s : ClientState, s.ws = none → s.session = none → disconnect s = s) ∧
    (∀ s : ClientState, disconnect (disconnect s) = disconnect s) := by
  constructor
  · intro s hw hs
    simp [disconnect, hw, hs]
  · intro s
    cases hw : s.ws <;> cases hs : s.session <;> simp [disconnect, hw, hs]

/-- Witness for C8 at the freshly-constructed client. -/
theorem c8_witness :
    initState.ws = none ∧ initState.session = none ∧
      disconnect initState = initState :=
  ⟨rfl, rfl, c8_disconnect_noop_idempotent.1 initState rfl rfl⟩

/-- Claim C9: a success envelope whose result is null and whose
identifier matches the request makes the call return successfully with
no error: with the counter at 0, set_speed 50 sends the request with
id 1 and, on the reply with id 1 and null result, returns ok. -/
theorem c9_null_result_success :
    ∀ s : ClientState, wsIsOpen s = true → s.request_id = 0 →
      set_speed true 50 [.text [("id", .num 1), ("result", .null)]] s
        = (.ok (), sendReq "set_speed" [("percent", .num 50)] s, []) ∧
      (sendReq "set_speed" [("percent", .num 50)] s).sent
        = s.sent ++ [⟨"2.0", "set_speed", [("percent", .num 50)], 1⟩] := by
  intro s hopen hid
  refine ⟨?_, ?_⟩
  · unfold set_speed callRPC ensureOpen
    rw [hopen]
    simp [jfind]
  · simp [sendReq, hid]

/-- Witness for C9 at the concrete connected client. -/
theorem c9_witness :
    wsIsOpen sOpen = true ∧ sOpen.request_id = 0 ∧
      set_speed true 50 [.text [("id", .num 1), ("result", .null)]] sOpen
        = (.ok (), sendReq "set_speed" [("percent", .num 50)] sOpen, []) :=
  ⟨rfl, rfl, (c9_null_result_success sOpen rfl rfl).1⟩

/-- Claim C7 counterexample: connecting a second time while already open
is not equivalent to a single connect — a second session is allocated
(openSessions grows to two entries) and the first session (handle 0) is
left behind unclosed. -/
theorem c7_counterexample :
    (connect true sOpen).2.openSessions = [1, 0] ∧
    (connect true sOpen).2.session = some 1 ∧
    sOpen.openSessions = [0] ∧
    (connect true sOpen).2 ≠ sOpen := by
  refine ⟨rfl, rfl, rfl, ?_⟩
  intro h
  exact absurd (congrArg ClientState.openSessions h) (by decide)

/-- Claim C7 amended: connect on an already-open client leaves it open,
but is not idempotent — it allocates a fresh session and websocket and
replaces the old handles without closing them, so every previously open
session (including the current one) remains unclosed. -/
theorem c7_connect_replaces_without_closing :
    ∀ s : ClientState, wsIsOpen s = true →
      wsIsOpen (connect true s).2 = true ∧
      (connect true s).2.ws = some s.nextConn ∧
      (connect true s).2.session = some s.nextConn ∧
      (connect true s).2.openSessions = s.nextConn :: s.openSessions ∧
      (connect true s).2.aliveWs = s.nextConn :: s.aliveWs := by
  intro s h
  refine ⟨?_, rfl, rfl, rfl, rfl⟩
  simp [connect, wsIsOpen]

/-- Witness for the amended C7 at the concrete connected client. -/
theorem c7_witness :
    wsIsOpen sOpen = true ∧
      (connect true sOpen).2.openSessions = sOpen.nextConn :: sOpen.openSessions :=
  ⟨rfl, (c7_connect_replaces_without_closing sOpen rfl).2.2.2.1⟩

/-- Claim C1 counterexample: the call sends request id 1 but resolves
with the payload of a response whose id member is 999 — _call never
consults the id member, so correlation is not by identifier. -/
theorem c1_counterexample :
    callRPC true "get_joint_angles" []
        [.text [("id", .num 999), ("result", .str "mismatched")]] sOpen
      = (.ok (.str "mismatched"), sendReq "get_joint_angles" [] sOpen, []) ∧
    (sendReq "get_joint_angles" [] sOpen).sent.map Request.id = [1] ∧
    (999 : Int) ≠ 1 := ⟨rfl, rfl, by decide⟩

/-- Claim C1 amended: each call resolves with the first TEXT frame
received after its send, by arrival order: the outcome and resulting
state are invariant under any change of the id member of the delivered
response, and a success frame resolves the call with that frame's result
member regardless of identifiers. -/
theorem c1_resolution_by_arrival_order :
    (∀ (r : Bool) (m : String) (p : List (String × JVal)) (s : ClientState)
        (i j : Int) (fields : List (String × JVal)) (rest : List WSMsg),
      (callRPC r m p (.text (("id", .num i) :: fields) :: rest) s).1
        = (callRPC r m p (.text (("id", .num j) :: fields) :: rest) s).1 ∧
      (callRPC r m p (.text (("id", .num i) :: fields) :: rest) s).2.1
        = (callRPC r m p (.text (("id", .num j) :: fields) :: rest) s).2.1) ∧
    (∀ (r : Bool) (m : String) (p : List (String × JVal)) (s : ClientState)
        (fields : List (String × JVal)) (rest : List WSMsg),
      wsIsOpen s = true → jfind "error" fields = none →
      callRPC r m p (.text fields :: rest) s
        = (.ok ((jfind "result" fields).getD .null), sendReq m p s, rest)) := by
  constructor
  · intro r m p s i j fields rest
    unfold callRPC ensureOpen
    cases hw : wsIsOpen s
    · cases r <;> simp [connect, jfind]
    · simp [jfind]
  · intro r m p s fields rest hopen herr
    unfold callRPC ensureOpen
    rw [hopen]
    simp [herr]

/-- Witness for the amended C1 at a concrete frame. -/
theorem c1_witness :
    wsIsOpen sOpen = true ∧
    jfind "error" [("id", .num 4), ("result", .num 8)] = none ∧
    callRPC true "verify_scene" [] [.text [("id", .num 4), ("result", .num 8)]] sOpen
      = (.ok (.num 8), sendReq "verify_scene" [] sOpen, []) :=
  ⟨rfl, rfl,
    c1_resolution_by_arrival_order.2 true "verify_scene" [] sOpen
      [("id", .num 4), ("result", .num 8)] [] rfl rfl⟩

/-- Claim C3 counterexample: two error envelopes that differ only in
their code produce identical failures, so the raised error cannot expose
the code; the failure carries only the message (the scenario from the
claim yields the generic message-only exception, not a typed RpcError
with a code). -/
theorem c3_counterexample :
    callRPC true "get_joint_angles" []
        [.text [("id", .num 7),
                ("error", .obj [("code", .num (-32000)),
                                ("message", .str "arm not calibrated")])]] sOpen
      = callRPC true "get_joint_angles" []
        [.text [("id", .num 7),
                ("error", .obj [("code", .num 999),
                                ("message", .str "arm not calibrated")])]] sOpen
    ∧ (callRPC true "get_joint_angles" []
        [.text [("id", .num 7),
                ("error", .obj [("code", .num (-32000)),
                                ("message", .str "arm not calibrated")])]] sOpen).1
      = .error (.rpcError (.str "arm not calibrated")) := ⟨rfl, rfl⟩

/-- Claim C3 amended: on an error envelope the call fails — it never
returns a success result — with the generic exception built from the
error object's message member only; the code member is not surfaced. -/
theorem c3_error_exposes_only_message :
    ∀ (r : Bool) (m : String) (p : List (String × JVal)) (s : ClientState)
      (fields : List (String × JVal)) (errObj mv : JVal) (rest : List WSMsg),
      wsIsOpen s = true → jfind "error" fields = some errObj →
      jIndex errObj "message" = .ok mv →
      callRPC r m p (.text fields :: rest) s
        = (.error (.rpcError mv), sendReq m p s, rest) := by
  intro r m p s fields errObj mv rest hopen herr hmsg
  unfold callRPC ensureOpen
  rw [hopen]
  simp [herr, hmsg]

/-- Witness for the amended C3 at the scenario from the claim. -/
theorem c3_witness :
    wsIsOpen sOpen = true ∧
    jfind "error"
        [("error", .obj [("code", .num (-32000)), ("message", .str "arm not calibrated")])]
      = some (.obj [("code", .num (-32000)), ("message", .str "arm not calibrated")]) ∧
    jIndex (.obj [("code", .num (-32000)), ("message", .str "arm not calibrated")]) "message"
      = .ok (.str "arm not calibrated") ∧
    callRPC true "get_joint_angles" []
        [.text [("error", .obj [("code", .num (-32000)), ("message", .str "arm not calibrated")])]]
        sOpen
      = (.error (.rpcError (.str "arm not calibrated")), sendReq "get_joint_angles" [] sOpen, []) :=
  ⟨rfl, rfl, rfl,
    c3_error_exposes_only_message true "get_joint_angles" [] sOpen _ _ _ [] rfl rfl rfl⟩

lemma bind_never_ok {α β : Type} (x : Except PyErr α) (f : α → Except PyErr β)
    (h : ∀ a, ∃ e, f a = .error e) : ∃ e, (x >>= f) = .error e := by
  cases x with
  | error e => exact ⟨e, rfl⟩
  | ok a => exact h a

lemma pyBind_error {α β : Type} (e : PyErr) (f : α → Except PyErr β) :
    (Except.error e >>= f) = (Except.error e : Except PyErr β) := rfl

lemma pyBind_ok {α β : Type} (a : α) (f : α → Except PyErr β) :
    (Except.ok a >>= f) = f a := rfl

lemma taskTraining_from_dict_err (d : JVal) :
    ∃ e, TaskTraining.from_dict d = .error e := by
  unfold TaskTraining.from_dict
  apply bind_never_ok; intro i
  apply bind_never_ok; intro tn
  apply bind_never_ok; intro trn
  apply bind_never_ok; intro mv
  apply bind_never_ok; intro m
  apply bind_never_ok; intro tec
  apply bind_never_ok; intro ca
  exact ⟨_, rfl⟩

/-- Claim C5: TaskTraining.from_dict raises on every input — it passes
six positional arguments (the created_at value bound to the status
parameter) to a constructor requiring seven, so even a well-formed
training record yields the arity TypeError — and consequently
list_trainings fails whenever the call result is a non-empty array. -/
theorem c5_from_dict_always_raises :
    (∀ d : JVal, ∃ e, TaskTraining.from_dict d = .error e) ∧
    TaskTraining.from_dict goodTraining
      = .error (.typeError
          "TaskTraining init missing 1 required positional argument: created_at") ∧
    (∀ (r : Bool) (tn : JVal) (inc : List WSMsg) (s s' : ClientState)
        (t : JVal) (ts : List JVal) (rem : List WSMsg),
      callRPC r "list_trainings" [("task_name", tn)] inc s
        = (.ok (.arr (t :: ts)), s', rem) →
      ∃ e, (list_trainings r tn inc s).1 = .error e) := by
  refine ⟨taskTraining_from_dict_err, rfl, ?_⟩
  intro r tn inc s s' t ts rem hcall
  unfold list_trainings
  rw [hcall]
  obtain ⟨e, he⟩ := taskTraining_from_dict_err t
  refine ⟨.pyError e, ?_⟩
  simp [trainingsOf, he, pyBind_error]

/-- Witness for C5 at a server response holding one well-formed
training record. -/
theorem c5_witness :
    callRPC true "list_trainings" [("task_name", .null)]
        [.text [("id", .num 1), ("result", .arr [goodTraining])]] sOpen
      = (.ok (.arr [goodTraining]),
         sendReq "list_trainings" [("task_name", .null)] sOpen, []) ∧
    ∃ e, (list_trainings true .null
        [.text [("id", .num 1), ("result", .arr [goodTraining])]] sOpen).1
      = .error e :=
  ⟨rfl,
    c5_from_dict_always_raises.2.2 true .null
      [.text [("id", .num 1), ("result", .arr [goodTraining])]] sOpen
      (sendReq "list_trainings" [("task_name", .null)] sOpen)
      goodTraining [] [] rfl⟩

lemma status_from_dict_no_em (fields : List (String × JVal))
    (h : jfind "error_message" fields = none) :
    ∃ e, Status.from_dict (.obj fields) = .error e := by
  unfold Status.from_dict
  apply bind_never_ok; intro mv
  apply bind_never_ok; intro md
  apply bind_never_ok; intro st
  refine ⟨.keyError "error_message", ?_⟩
  simp [jIndex, h, pyBind_error]

/-- Claim C10 counterexample: an input lacking the error_message key
need not raise a KeyError — with an invalid mode value the enum
conversion raises ValueError first. -/
theorem c10_counterexample :
    jfind "error_message" [("mode", .num 3)] = none ∧
    Status.from_dict (.obj [("mode", .num 3)])
      = .error (.valueError "is not a valid Mode") ∧
    (PyErr.valueError "is not a valid Mode").isKeyError = false := ⟨rfl, rfl, rfl⟩

/-- Claim C10 amended: on any input lacking the error_message key,
Status.from_dict raises — a KeyError for error_message whenever mode and
status are present with a valid mode (despite the constructor default),
and some exception in every case — so get_status fails on any status
result that omits error_message. -/
theorem c10_missing_error_message_fails :
    (∀ (fields : List (String × JVal)) (mv : JVal) (md : Mode) (st : JVal),
      jfind "mode" fields = some mv → Mode.ofVal mv = .ok md →
      jfind "status" fields = some st → jfind "error_message" fields = none →
      Status.from_dict (.obj fields) = .error (.keyError "error_message")) ∧
    (∀ fields, jfind "error_message" fields = none →
      ∃ e, Status.from_dict (.obj fields) = .error e) ∧
    (∀ (r : Bool) (inc : List WSMsg) (s s' : ClientState)
        (fields : List (String × JVal)) (rem : List WSMsg),
      jfind "error_message" fields = none →
      callRPC r "get_status" [] inc s = (.ok (.obj fields), s', rem) →
      ∃ e, (get_status r inc s).1 = .error e) := by
  refine ⟨?_, status_from_dict_no_em, ?_⟩
  · intro fields mv md st h1 h2 h3 h4
    simp [Status.from_dict, jIndex, h1, h2, h3, h4, pyBind_error, pyBind_ok]
  · intro r inc s s' fields rem hem hcall
    unfold get_status
    rw [hcall]
    obtain ⟨e, he⟩ := status_from_dict_no_em fields hem
    refine ⟨.pyError e, ?_⟩
    simp [he]

/-- Witness for the amended C10 at a well-formed status mapping that
merely omits error_message. -/
theorem c10_witness :
    jfind "mode" [("mode", .str "drag"), ("status", .str "ok")] = some (.str "drag") ∧
    Mode.ofVal (.str "drag") = .ok .drag ∧
    jfind "status" [("mode", .str "drag"), ("status", .str "ok")] = some (.str "ok") ∧
    jfind "error_message" [("mode", .str "drag"), ("status", .str "ok")] = none ∧
    Status.from_dict (.obj [("mode", .str "drag"), ("status", .str "ok")])
      = .error (.keyError "error_message") :=
  ⟨rfl, rfl, rfl, rfl,
    c10_missing_error_message_fails.1 [("mode", .str "drag"), ("status", .str "ok")]
      (.str "drag") .drag (.str "ok") rfl rfl rfl rfl⟩

/-- Claim C2 counterexample: a single call attempted on a closed
connection can reconnect twice — once at entry and once more for the
CLOSE frame received after the first send — and still succeed, so the
reconnect is not a single retry. -/
theorem c2_counterexample :
    wsIsOpen sClosed = false ∧
    (callRPC true "get_status" []
        [.close, .text [("id", .num 2), ("result", .null)]] sClosed).1 = .ok .null ∧
    (callRPC true "get_status" []
        [.close, .text [("id", .num 2), ("result", .null)]] sClosed).2.1.nextConn
      = sClosed.nextConn + 2 := ⟨rfl, rfl, rfl⟩

/-- Claim C2 amended: on a closed connection _call attempts one connect
before sending, and if that connect fails the failure (the client
connection error) propagates; but every CLOSE frame received mid-call
triggers a further connect and a full recursive retry, so the number of
transports created within one call grows with the number of CLOSE
frames delivered — there is no fixed bound. -/
theorem c2_reconnect_once_then_unbounded_retries :
    (∀ (m : String) (p : List (String × JVal)) (inc : List WSMsg) (s : ClientState),
      wsIsOpen s = false →
      callRPC false m p inc s = (.error .connectionError, (connect false s).2, inc)) ∧
    (∀ (m : String) (p : List (String × JVal)) (n : Nat) (s : ClientState),
      wsIsOpen s = true →
      (callRPC true m p
          (List.replicate n .close ++ [.text [("result", .null)]]) s).1 = .ok .null ∧
      (callRPC true m p
          (List.replicate n .close ++ [.text [("result", .null)]]) s).2.1.nextConn
        = s.nextConn + n) := by
  constructor
  · intro m p inc s hw
    have hco : ensureOpen false s = (.error .connectionError, (connect false s).2) := by
      simp [ensureOpen, hw, connect]
    cases inc with
    | nil => simp [callRPC, hco]
    | cons h t => cases h <;> simp [callRPC, hco]
  · intro m p n
    induction n with
    | zero =>
      intro s hw
      constructor
      · simp [callRPC, ensureOpen, hw, jfind]
      · simp [callRPC, ensureOpen, hw, jfind, sendReq]
    | succ k ih =>
      intro s hw
      have hrep : List.replicate (k + 1) WSMsg.close ++ [WSMsg.text [("result", .null)]]
          = .close :: (List.replicate k .close ++ [.text [("result", .null)]]) := by
        simp [List.replicate_succ]
      have hw2 : wsIsOpen (connect true (markWsDead (sendReq m p s))).2 = true := by
        simp [connect, wsIsOpen]
      have hnc : (connect true (markWsDead (sendReq m p s))).2.nextConn
          = s.nextConn + 1 := by
        cases hsw : s.ws <;> simp [connect, markWsDead, sendReq, hsw]
      have hstep : callRPC true m p
            (.close :: (List.replicate k .close ++ [.text [("result", .null)]])) s
          = callRPC true m p (List.replicate k .close ++ [.text [("result", .null)]])
              ((connect true (markWsDead (sendReq m p s))).2) := by
        simp [callRPC, ensureOpen, hw, connect]
      obtain ⟨ih1, ih2⟩ := ih ((connect true (markWsDead (sendReq m p s))).2) hw2
      constructor
      · rw [hrep, hstep]
        exact ih1
      · rw [hrep, hstep, ih2, hnc]
        omega

/-- Witness for the amended C2: a call on the concrete closed client
with an unreachable endpoint fails with the connection error. -/
theorem c2_witness :
    wsIsOpen sClosed = false ∧
    callRPC false "get_status" [] [] sClosed
      = (.error .connectionError, (connect false sClosed).2, []) :=
  ⟨rfl, c2_reconnect_once_then_unbounded_retries.1 "get_status" [] [] sClosed rfl⟩

lemma connect_sent (r : Bool) (s : ClientState) : ((connect r s).2).sent = s.sent := by
  cases r <;> simp [connect]

lemma connect_request_id (r : Bool) (s : ClientState) :
    ((connect r s).2).request_id = s.request_id := by
  cases r <;> simp [connect]

lemma disconnect_sent (s : ClientState) : (disconnect s).sent = s.sent := by
  cases hw : s.ws <;> cases hs : s.session <;> simp [disconnect, hw, hs]

lemma disconnect_request_id (s : ClientState) :
    (disconnect s).request_id = s.request_id := by
  cases hw : s.ws <;> cases hs : s.session <;> simp [disconnect, hw, hs]

lemma markWsDead_sent (s : ClientState) : (markWsDead s).sent = s.sent := by
  cases hw : s.ws <;> simp [markWsDead, hw]

lemma markWsDead_request_id (s : ClientState) :
    (markWsDead s).request_id = s.request_id := by
  cases hw : s.ws <;> simp [markWsDead, hw]

lemma ensureOpen_sent (r : Bool) (s : ClientState) :
    ((ensureOpen r s).2).sent = s.sent := by
  cases hw : wsIsOpen s <;> simp [ensureOpen, hw, connect_sent]

lemma ensureOpen_request_id (r : Bool) (s : ClientState) :
    ((ensureOpen r s).2).request_id = s.request_id := by
  cases hw : wsIsOpen s <;> simp [ensureOpen, hw, connect_request_id]

lemma sentInv_of_eq (s s' : ClientState) (hs : s'.sent = s.sent)
    (hr : s'.request_id = s.request_id) : SentInv s → SentInv s' := by
  rintro ⟨h1, h2⟩
  constructor
  · rw [hs]; exact h1
  · intro q hq
    rw [hr]
    exact h2 q (by rwa [hs] at hq)

lemma sentInv_connect (r : Bool) (s : ClientState) :
    SentInv s → SentInv (connect r s).2 :=
  sentInv_of_eq s _ (connect_sent r s) (connect_request_id r s)

lemma sentInv_disconnect (s : ClientState) : SentInv s → SentInv (disconnect s) :=
  sentInv_of_eq s _ (disconnect_sent s) (disconnect_request_id s)

lemma sentInv_markWsDead (s : ClientState) : SentInv s → SentInv (markWsDead s) :=
  sentInv_of_eq s _ (markWsDead_sent s) (markWsDead_request_id s)

lemma sentInv_ensureOpen (r : Bool) (s : ClientState) :
    SentInv s → SentInv (ensureOpen r s).2 :=
  sentInv_of_eq s _ (ensureOpen_sent r s) (ensureOpen_request_id r s)

lemma sentInv_sendReq (m : String) (p : List (String × JVal)) (s : ClientState) :
    SentInv s → SentInv (sendReq m p s) := by
  rintro ⟨h1, h2⟩
  constructor
  · simp only [sendReq, List.map_append, List.map_cons, List.map_nil]
    rw [List.pairwise_append]
    refine ⟨h1, by simp, ?_⟩
    intro a ha b hb
    simp only [List.mem_cons, List.not_mem_nil, or_false] at hb
    subst hb
    obtain ⟨q, hq, rfl⟩ := List.mem_map.1 ha
    have := h2 q hq
    omega
  · intro q hq
    simp only [sendReq, List.mem_append, List.mem_cons, List.not_mem_nil, or_false] at hq
    rcases hq with hq | rfl
    · have := h2 q hq
      simp only [sendReq]
      omega
    · simp [sendReq]

lemma sentInv_callRPC (r : Bool) (m : String) (p : List (String × JVal)) :
    ∀ (inc : List WSMsg) (s : ClientState),
      SentInv s → SentInv (callRPC r m p inc s).2.1 := by
  intro inc
  induction inc with
  | nil =>
    intro s hs
    simp only [callRPC]
    rcases heo : ensureOpen r s with ⟨res, s0⟩
    have hs0 : SentInv s0 := by
      have := sentInv_ensureOpen r s hs
      rwa [heo] at this
    cases res with
    | error e => exact hs0
    | ok u => exact sentInv_sendReq m p s0 hs0
  | cons msg rest ih =>
    intro s hs
    cases msg with
    | text response =>
      simp only [callRPC]
      rcases heo : ensureOpen r s with ⟨res, s0⟩
      have hs0 : SentInv s0 := by
        have := sentInv_ensureOpen r s hs
        rwa [heo] at this
      cases res with
      | error e => exact hs0
      | ok u =>
        cases hje : jfind "error" response with
        | none => simpa [hje] using sentInv_sendReq m p s0 hs0
        | some errObj =>
          cases hjm : jIndex errObj "message" with
          | ok mv => simpa [hje, hjm] using sentInv_sendReq m p s0 hs0
          | error pe => simpa [hje, hjm] using sentInv_sendReq m p s0 hs0
    | close =>
      simp only [callRPC]
      rcases heo : ensureOpen r s with ⟨res, s0⟩
      have hs0 : SentInv s0 := by
        have := sentInv_ensureOpen r s hs
        rwa [heo] at this
      cases res with
      | error e => exact hs0
      | ok u =>
        rcases hc : connect r (markWsDead (sendReq m p s0)) with ⟨res2, s2⟩
        have hs2 : SentInv s2 := by
          have := sentInv_connect r (markWsDead (sendReq m p s0))
            (sentInv_markWsDead _ (sentInv_sendReq m p s0 hs0))
          rwa [hc] at this
        cases res2 with
        | error e => simpa [hc] using hs2
        | ok u2 => simpa [hc] using ih s2 hs2
    | closing =>
      simp only [callRPC]
      rcases heo : ensureOpen r s with ⟨res, s0⟩
      have hs0 : SentInv s0 := by
        have := sentInv_ensureOpen r s hs
        rwa [heo] at this
      cases res with
      | error e => exact hs0
      | ok u =>
        rcases hc : connect r (markWsDead (sendReq m p s0)) with ⟨res2, s2⟩
        have hs2 : SentInv s2 := by
          have := sentInv_connect r (markWsDead (sendReq m p s0))
            (sentInv_markWsDead _ (sentInv_sendReq m p s0 hs0))
          rwa [hc] at this
        cases res2 with
        | error e => simpa [hc] using hs2
        | ok u2 => simpa [hc] using ih s2 hs2
    | binary =>
      simp only [callRPC]
      rcases heo : ensureOpen r s with ⟨res, s0⟩
      have hs0 : SentInv s0 := by
        have := sentInv_ensureOpen r s hs
        rwa [heo] at this
      cases res with
      | error e => exact hs0
      | ok u => exact sentInv_sendReq m p s0 hs0

lemma sentInv_step (s : ClientState) (op : Op) : SentInv s → SentInv (step s op) := by
  cases op with
  | doConnect r => exact sentInv_connect r s
  | doDisconnect => exact sentInv_disconnect s
  | doCall r m p inc => exact sentInv_callRPC r m p inc s

lemma sentInv_run : ∀ (ops : List Op) (s : ClientState), SentInv s → SentInv (run s ops) := by
  intro ops
  induction ops with
  | nil => intro s hs; exact hs
  | cons op ops ih => intro s hs; exact ih (step s op) (sentInv_step s op hs)

/-- Claim C4: the request identifier counter starts at 0 in the
constructor, neither connect (reconnect) nor disconnect ever changes it,
and over every sequence of operations in one process lifetime the
identifiers of the sent requests are strictly increasing — so no
identifier is ever reused. -/
theorem c4_identifiers_strictly_increasing :
    initState.request_id = 0 ∧
    (∀ (r : Bool) (s : ClientState), ((connect r s).2).request_id = s.request_id) ∧
    (∀ s : ClientState, (disconnect s).request_id = s.request_id) ∧
    (∀ ops : List Op, ((run initState ops).sent.map Request.id).Pairwise (· < ·)) := by
  refine ⟨rfl, connect_request_id, disconnect_request_id, ?_⟩
  intro ops
  exact (sentInv_run ops initState ⟨by simp [initState], by simp [initState]⟩).1
